import Mathlib

/-!
Shallow embedding of the AI Provider Abstraction and Multi-Source Synthesis
Engine of the easy-gate repository.

The embedding covers:
- the shared error normalizer (src/ai/providers/BaseProvider.ts, handleError);
- the response-handling stage of each provider adapter's generateText and
  testApiKey (src/ai/providers/OpenAIProvider.ts, which also holds
  GeminiProvider, plus ClaudeProvider and GLMProvider): each is modelled as a
  total function of the settled HTTP call, i.e. of either the parsed vendor
  response or the caught transport error;
- the orchestration service AIService (src/ai/AIService.ts): configuration
  predicates, model resolution, and the validate-then-dispatch step of
  generateText;
- the multi-source synthesis pipeline (src/GateView.ts,
  runMultiSourceAnalysis and callMultiSourceAI): prompt rendering, the
  aggregate character count, and the wire-level call parameters.

JavaScript strings are modelled as Lean String; `undefined`-able values as
Option; JS truthiness of an optional string (undefined or "" is falsy) as
optTruthy. Numeric literal 0.7 is modelled as the rational 7/10.
-/

namespace EasyGate

/-- Does the character list start with the given pattern? Models the initial
segment test used by strIncludes. -/
def startsWithChars : List Char → List Char → Bool
  | [], _ => true
  | _ :: _, [] => false
  | p :: ps, c :: cs => p == c && startsWithChars ps cs

/-- Does the pattern occur as a contiguous run inside the character list? -/
def occursInChars (pat : List Char) : List Char → Bool
  | [] => startsWithChars pat []
  | c :: cs => startsWithChars pat (c :: cs) || occursInChars pat cs

/-- Model of JavaScript String.prototype.includes: does pat occur in s? -/
def strIncludes (s pat : String) : Bool := occursInChars pat.data s.data

/-- Model of JavaScript String.prototype.trim: drop whitespace from both
ends. -/
def jsTrim (s : String) : String :=
  String.mk (((s.data.dropWhile Char.isWhitespace).reverse.dropWhile
    Char.isWhitespace).reverse)

/-- JS truthiness of a possibly-undefined string: undefined and "" are
falsy. -/
def optTruthy : Option String → Bool
  | none => false
  | some s => !(s == "")

/-- Model of the JS expression a || b for a possibly-undefined string a. -/
def jsOrOpt (a : Option String) (b : String) : String :=
  match a with
  | none => b
  | some x => if x == "" then b else x

/-- Model of JavaScript Array.prototype.join with a separator. -/
def joinWithSep (sep : String) : List String → String
  | [] => ""
  | x :: xs => xs.foldl (fun acc y => acc ++ sep ++ y) x

/-- The closed provider enumeration AIProviderType of src/ai/types.ts. -/
inductive AIProviderType
  | gemini
  | grok
  | claude
  | openai
  | glm
deriving DecidableEq

/-- AIProviderResponse of src/ai/types.ts, the neutral response every adapter
produces. Fields left out of a TS object literal are undefined, i.e. none. -/
structure AIProviderResponse where
  success : Bool
  content : String
  tokensUsed : Option Nat := none
  error : Option String := none
  errorCode : Option String := none
deriving DecidableEq

/-- The value caught by a catch block: an Error object (with a message), a
thrown string, or anything else. -/
inductive CaughtError
  | errObj (message : String)
  | errStr (s : String)
  | other
deriving DecidableEq

/-- The errorMessage extraction at the top of BaseProvider.handleError:
an Error yields its message, a string yields itself, anything else yields
the fixed fallback text. -/
def stringifyCaught : CaughtError → String
  | .errObj m => m
  | .errStr s => s
  | .other => "Unknown error occurred"

/-- BaseProvider.handleError (src/ai/providers/BaseProvider.ts lines 47-90):
the shared error normalizer, an ordered chain of substring tests on the
stringified error. -/
def handleError (e : CaughtError) : AIProviderResponse :=
  let errorMessage := stringifyCaught e
  if strIncludes errorMessage "401" || strIncludes errorMessage "Unauthorized" then
    { success := false, content := "",
      error := some "Invalid API key. Please check your API key in settings.",
      errorCode := some "UNAUTHORIZED" }
  else if strIncludes errorMessage "429" || strIncludes errorMessage "rate limit" then
    { success := false, content := "",
      error := some "Rate limit exceeded. Please wait a moment and try again.",
      errorCode := some "RATE_LIMIT" }
  else if strIncludes errorMessage "timeout" || strIncludes errorMessage "ETIMEDOUT" then
    { success := false, content := "",
      error := some "Request timed out. Please try again.",
      errorCode := some "TIMEOUT" }
  else
    { success := false, content := "", error := some errorMessage,
      errorCode := some "UNKNOWN" }

/-- The spec's closed error taxonomy restricted to the kinds the normalizer
can yield. -/
inductive ErrorKind
  | unauthorized
  | rateLimited
  | timeout
  | unknown
deriving DecidableEq

/-- Classification written from the spec's words (section 4.2): 401 or
Unauthorized yields unauthorized; 429 or rate limit yields rate_limited;
timeout or ETIMEDOUT yields timeout; anything else yields unknown, matched
in that order. Used to check handleError against the spec. -/
def classifyErrorText (m : String) : ErrorKind :=
  if strIncludes m "401" || strIncludes m "Unauthorized" then .unauthorized
  else if strIncludes m "429" || strIncludes m "rate limit" then .rateLimited
  else if strIncludes m "timeout" || strIncludes m "ETIMEDOUT" then .timeout
  else .unknown

/-- The literal errorCode string the source uses for each taxonomy kind. -/
def errorKindCode : ErrorKind → String
  | .unauthorized => "UNAUTHORIZED"
  | .rateLimited => "RATE_LIMIT"
  | .timeout => "TIMEOUT"
  | .unknown => "UNKNOWN"

/-- Outcome of the single awaited HTTP call of an adapter method: either the
parsed vendor response or the caught transport error. -/
inductive FetchOutcome (α : Type)
  | parsed (resp : α)
  | threw (e : CaughtError)

/-- choices[i].message of the OpenAI wire response. -/
structure OpenAIChoiceMessage where
  role : String
  content : String
deriving DecidableEq

/-- One element of choices in the OpenAI wire response. -/
structure OpenAIChoice where
  message : OpenAIChoiceMessage
deriving DecidableEq

/-- usage of the OpenAI wire response. -/
structure OpenAIUsage where
  total_tokens : Nat
deriving DecidableEq

/-- error of the OpenAI wire response. -/
structure OpenAIError where
  message : String
  type : String
  code : String
deriving DecidableEq

/-- The OpenAIResponse shape as the code actually guards it: choices may be
missing at runtime, usage and error are optional. -/
structure OpenAIResponse where
  choices : Option (List OpenAIChoice)
  usage : Option OpenAIUsage
  error : Option OpenAIError
deriving DecidableEq

/-- OpenAIProvider.generateText (src/ai/providers/OpenAIProvider.ts lines
103-141), from the point the HTTP call settles: vendor error object first,
then the missing-or-empty choices guard, then the success extraction of
choices[0].message.content; a thrown error goes through handleError. -/
def openaiGenerateText : FetchOutcome OpenAIResponse → AIProviderResponse
  | .threw e => handleError e
  | .parsed r =>
    match r.error with
    | some err =>
      { success := false, content := "", error := some err.message,
        errorCode := some err.code }
    | none =>
      match r.choices with
      | none => { success := false, content := "", error := some "No response generated" }
      | some [] => { success := false, content := "", error := some "No response generated" }
      | some (c :: _) =>
        { success := true, content := c.message.content,
          tokensUsed := r.usage.map OpenAIUsage.total_tokens }

/-- One element of parts in the Gemini wire response. -/
structure GeminiPart where
  text : String
deriving DecidableEq

/-- candidates[i].content of the Gemini wire response. -/
structure GeminiContent where
  parts : List GeminiPart
  role : String
deriving DecidableEq

/-- One element of candidates in the Gemini wire response. -/
structure GeminiCandidate where
  content : GeminiContent
deriving DecidableEq

/-- usageMetadata of the Gemini wire response. -/
structure GeminiUsage where
  totalTokenCount : Nat
deriving DecidableEq

/-- error of the Gemini wire response. -/
structure GeminiError where
  code : Nat
  message : String
  status : String
deriving DecidableEq

/-- The GeminiResponse shape: candidates, usageMetadata and error are all
optional. -/
structure GeminiResponse where
  candidates : Option (List GeminiCandidate)
  usageMetadata : Option GeminiUsage
  error : Option GeminiError
deriving DecidableEq

/-- GeminiProvider.generateText (second half of
src/ai/providers/OpenAIProvider.ts, lines 258-297 of the combined file), from
the point the HTTP call settles: vendor error first, then the
missing-or-empty candidates guard, then the success extraction joining
candidates[0].content.parts[].text. -/
def geminiGenerateText : FetchOutcome GeminiResponse → AIProviderResponse
  | .threw e => handleError e
  | .parsed r =>
    match r.error with
    | some err =>
      { success := false, content := "", error := some err.message,
        errorCode := some err.status }
    | none =>
      match r.candidates with
      | none => { success := false, content := "", error := some "No response generated" }
      | some [] => { success := false, content := "", error := some "No response generated" }
      | some (c :: _) =>
        { success := true,
          content := String.join (c.content.parts.map GeminiPart.text),
          tokensUsed := r.usageMetadata.map GeminiUsage.totalTokenCount }

/-- One element of content in the Claude wire response. -/
structure ClaudeContentBlock where
  type : String
  text : String
deriving DecidableEq

/-- usage of the Claude wire response. -/
structure ClaudeUsage where
  input_tokens : Nat
  output_tokens : Nat
deriving DecidableEq

/-- error of the Claude wire response. -/
structure ClaudeError where
  type : String
  message : String
deriving DecidableEq

/-- The ClaudeResponse shape as the code actually guards it: content may be
missing, usage is guarded with a ternary, error is optional. -/
structure ClaudeResponse where
  content : Option (List ClaudeContentBlock)
  usage : Option ClaudeUsage
  error : Option ClaudeError
deriving DecidableEq

/-- ClaudeProvider.generateText (src/unnamed/part_006 lines 111-154), from
the point the HTTP call settles: vendor error first, then the
missing-or-empty content guard, then the success extraction joining the
text of blocks whose type is text. -/
def claudeGenerateText : FetchOutcome ClaudeResponse → AIProviderResponse
  | .threw e => handleError e
  | .parsed r =>
    match r.error with
    | some err =>
      { success := false, content := "", error := some err.message,
        errorCode := some err.type }
    | none =>
      match r.content with
      | none => { success := false, content := "", error := some "No response generated" }
      | some [] => { success := false, content := "", error := some "No response generated" }
      | some blocks =>
        { success := true,
          content := String.join
            (((blocks.filter (fun b => b.type == "text")).map ClaudeContentBlock.text)),
          tokensUsed := r.usage.map (fun u => u.input_tokens + u.output_tokens) }

/-- choices[i].message of the GLM wire response. -/
structure GLMChoiceMessage where
  role : String
  content : String
deriving DecidableEq

/-- One element of choices in the GLM wire response. -/
structure GLMChoice where
  message : GLMChoiceMessage
deriving DecidableEq

/-- usage of the GLM wire response. -/
structure GLMUsage where
  total_tokens : Nat
deriving DecidableEq

/-- error of the GLM wire response. -/
structure GLMError where
  code : String
  message : String
deriving DecidableEq

/-- The GLMResponse shape (OpenAI compatible): choices may be missing, usage
and error are optional. -/
structure GLMResponse where
  choices : Option (List GLMChoice)
  usage : Option GLMUsage
  error : Option GLMError
deriving DecidableEq

/-- GLMProvider.generateText (src/unnamed/part_005 lines 152-189), from the
point the HTTP call settles: vendor error first, then the missing-or-empty
choices guard, then the success extraction of choices[0].message.content. -/
def glmGenerateText : FetchOutcome GLMResponse → AIProviderResponse
  | .threw e => handleError e
  | .parsed r =>
    match r.error with
    | some err =>
      { success := false, content := "", error := some err.message,
        errorCode := some err.code }
    | none =>
      match r.choices with
      | none => { success := false, content := "", error := some "No response generated" }
      | some [] => { success := false, content := "", error := some "No response generated" }
      | some (c :: _) =>
        { success := true, content := c.message.content,
          tokensUsed := r.usage.map GLMUsage.total_tokens }

/-- The GET /models reply shape used by OpenAIProvider.testApiKey: data and
error are both unknown-typed optional fields, so only presence matters. -/
structure OpenAIModelsResponse where
  data : Option (List Unit)
  error : Option Unit
deriving DecidableEq

/-- OpenAIProvider.testApiKey (src/ai/providers/OpenAIProvider.ts lines
61-79): truthy data and no error; a thrown transport error yields false. -/
def openaiTestApiKey : FetchOutcome OpenAIModelsResponse → Bool
  | .threw _ => false
  | .parsed r => r.data.isSome && r.error.isNone

/-- GeminiProvider.testApiKey (combined file lines 203-225): no error and
truthy candidates; a thrown transport error yields false. -/
def geminiTestApiKey : FetchOutcome GeminiResponse → Bool
  | .threw _ => false
  | .parsed r => r.error.isNone && r.candidates.isSome

/-- ClaudeProvider.testApiKey (src/unnamed/part_006 lines 59-83): no error
and truthy content; a thrown transport error yields false. -/
def claudeTestApiKey : FetchOutcome ClaudeResponse → Bool
  | .threw _ => false
  | .parsed r => r.error.isNone && r.content.isSome

/-- GLMProvider.testApiKey (src/unnamed/part_005 lines 103-127): no error
and truthy choices; a thrown transport error yields false. -/
def glmTestApiKey : FetchOutcome GLMResponse → Bool
  | .threw _ => false
  | .parsed r => r.error.isNone && r.choices.isSome

/-- The per-provider configured-model table of DEFAULT_AI_SETTINGS
(src/ai/types.ts lines 77-92). -/
def defaultModels : AIProviderType → String
  | .gemini => "gemini-2.5-flash"
  | .grok => "grok-4-1-fast"
  | .claude => "claude-sonnet-4-5-20241022"
  | .openai => "gpt-5"
  | .glm => "glm-4.6"

/-- The AISettings slice the orchestration service reads: active provider,
per-provider keys and models, and the custom-model override pair. apiKeys is
a partial record, so an absent key is none. -/
structure AISettings where
  provider : AIProviderType
  apiKeys : AIProviderType → Option String
  models : AIProviderType → String
  useCustomModel : Bool
  customModel : String
  defaultLanguage : String

/-- DEFAULT_AI_SETTINGS of src/ai/types.ts restricted to the modelled
fields. -/
def DEFAULT_AI_SETTINGS : AISettings :=
  { provider := .gemini, apiKeys := fun _ => none, models := defaultModels,
    useCustomModel := false, customModel := "", defaultLanguage := "한국어" }

/-- The name field of each provider. The four adapters under src/ declare
names identical to the AI_PROVIDERS registry entries; the Grok adapter file
is not under src/, so its name is taken from the registry (src/ai/types.ts
line 33). -/
def providerName : AIProviderType → String
  | .gemini => "Google Gemini"
  | .grok => "xAI Grok"
  | .claude => "Anthropic Claude"
  | .openai => "OpenAI"
  | .glm => "Zhipu AI (GLM)"

/-- AIService.initializeProviders registers an adapter instance for all five
provider ids, so the providers map lookup succeeds for every id. -/
def providersRegistered : AIProviderType → Bool := fun _ => true

/-- AIService.isProviderConfigured (src/ai/AIService.ts lines 85-88):
a truthy key whose trimmed form is non-empty. -/
def isProviderConfigured (s : AISettings) (pid : AIProviderType) : Bool :=
  match s.apiKeys pid with
  | none => false
  | some k => !(k == "") && decide (0 < (jsTrim k).length)

/-- AIService.getModelForProvider (src/ai/AIService.ts lines 93-98): with the
override flag set and pid equal to the active provider it returns
customModel || models[pid]; otherwise models[pid]. -/
def getModelForProvider (s : AISettings) (pid : AIProviderType) : String :=
  if s.useCustomModel && (s.provider == pid) then
    (if s.customModel == "" then s.models pid else s.customModel)
  else s.models pid

/-- The decision AIService.generateText makes before any network traffic:
either return a local failure response, or dispatch to the named adapter
with the chosen key and model. -/
inductive GenDispatch
  | localFail (resp : AIProviderResponse)
  | dispatch (pid : AIProviderType) (apiKey : String) (model : String)
deriving DecidableEq

/-- The validation stage of AIService.generateText (src/ai/AIService.ts lines
121-150): missing adapter yields the no-provider response (unreachable since
all five are registered); a falsy key yields the key-not-configured response;
otherwise the call is dispatched with options.model || resolved model. -/
def generateTextStep (s : AISettings) (optionsModel : Option String) : GenDispatch :=
  if providersRegistered s.provider = false then
    .localFail { success := false, content := "", error := some "No provider selected" }
  else
    match s.apiKeys s.provider with
    | none =>
      .localFail { success := false, content := "",
                   error := some ("API key not configured for " ++ providerName s.provider) }
    | some key =>
      if key == "" then
        .localFail { success := false, content := "",
                     error := some ("API key not configured for " ++ providerName s.provider) }
      else
        .dispatch s.provider key (jsOrOpt optionsModel (getModelForProvider s s.provider))

/-- Outcome of the dispatched adapter call: the adapter returned a response,
or it threw. -/
inductive AdapterOutcome
  | returned (r : AIProviderResponse)
  | threw (e : CaughtError)

/-- The completion of AIService.generateText (src/ai/AIService.ts lines
149-158): a local failure is returned as is; a returned adapter response is
passed through; a thrown adapter error is caught and converted, so the
service is total and never throws. -/
def generateTextResult (step : GenDispatch) (outcome : AdapterOutcome) :
    AIProviderResponse :=
  match step with
  | .localFail r => r
  | .dispatch _ _ _ =>
    match outcome with
    | .returned r => r
    | .threw e =>
      { success := false, content := "",
        error := some (match e with
          | .errObj m => m
          | .errStr _ => "Unknown error"
          | .other => "Unknown error") }

/-- Modelled from the spec: the SourceItem type declaration is not under
src/ (it is imported from the ai types module but missing from the captured
file). Constructors follow the type labels runMultiSourceAnalysis branches
on in src/GateView.ts line 744 (web-clip, obsidian-note, selection, and the
catch-all manual-input case); the spec section 3 names the same four-way
split. -/
inductive SourceType
  | webClip
  | obsidianNote
  | selection
  | manual
deriving DecidableEq

/-- Modelled from the spec: SourceItem metadata per spec section 3
(url, filePath optional; charCount), matching the accesses in
src/GateView.ts lines 745-747. -/
structure SourceMetadata where
  url : Option String
  filePath : Option String
  charCount : Nat
deriving DecidableEq

/-- Modelled from the spec: SourceItem per spec section 3, matching the
accesses in src/GateView.ts. -/
structure SourceItem where
  title : String
  content : String
  type : SourceType
  metadata : SourceMetadata
deriving DecidableEq

/-- Modelled from the spec: the closed analysisType enumeration of
SynthesisRequest per spec section 3; the same four keys appear in the prompt
table of src/GateView.ts lines 756-761. -/
inductive AnalysisType
  | synthesis
  | comparison
  | summary
  | custom
deriving DecidableEq

/-- Modelled from the spec: MultiSourceAnalysisRequest per spec section 3
(SynthesisRequest), with exactly the fields runMultiSourceAnalysis reads. -/
structure MultiSourceAnalysisRequest where
  sources : List SourceItem
  analysisType : AnalysisType
  customPrompt : Option String
  includeSourceReferences : Bool
  language : Option String
deriving DecidableEq

/-- The human-readable type label of src/GateView.ts line 744. -/
def sourceTypeLabel : SourceType → String
  | .webClip => "웹 클리핑"
  | .obsidianNote => "옵시디언 노트"
  | .selection => "선택 텍스트"
  | .manual => "직접 입력"

/-- A truthiness-guarded line of the source block template: rendered as
label plus value when the value is truthy, empty otherwise. -/
def renderOptLine (label : String) (v : Option String) : String :=
  match v with
  | none => ""
  | some x => if x == "" then "" else label ++ x

/-- One rendered source block of src/GateView.ts lines 743-751: index label
(1-based), title, type label, optional URL and file lines, char count, and
the full content, with the template's literal newlines. -/
def sourceBlock (index : Nat) (s : SourceItem) : String :=
  "[소스 " ++ toString (index + 1) ++ "] " ++ s.title ++ "\n" ++
  "타입: " ++ sourceTypeLabel s.type ++ "\n" ++
  renderOptLine "URL: " s.metadata.url ++ "\n" ++
  renderOptLine "파일: " s.metadata.filePath ++ "\n" ++
  "글자 수: " ++ toString s.metadata.charCount ++ "자\n\n내용:\n" ++
  s.content ++ "\n"

/-- The list of rendered source blocks, one per source in input order
(the map with index of src/GateView.ts line 742). -/
def sourceBlocks (req : MultiSourceAnalysisRequest) : List String :=
  req.sources.enum.map (fun p => sourceBlock p.1 p.2)

/-- sourcesContext of src/GateView.ts line 753: the blocks joined with the
visible separator. -/
def sourcesContext (req : MultiSourceAnalysisRequest) : String :=
  joinWithSep "\n---\n\n" (sourceBlocks req)

/-- The analysisTypePrompts table of src/GateView.ts lines 756-761. -/
def analysisTypePrompt : AnalysisType → String
  | .synthesis => "여러 소스의 정보를 종합하여 통합된 관점을 제시해주세요. 공통점, 핵심 인사이트, 그리고 새로운 통찰을 도출해주세요."
  | .comparison => "각 소스의 관점을 비교 분석해주세요. 유사점과 차이점, 각각의 강점과 약점을 분석해주세요."
  | .summary => "모든 소스의 핵심 내용을 간결하게 요약해주세요. 주요 포인트와 결론을 정리해주세요."
  | .custom => ""

/-- fullPrompt of src/GateView.ts lines 763-766: a truthy customPrompt is
prepended to the type-derived instruction, otherwise the instruction alone. -/
def fullPrompt (req : MultiSourceAnalysisRequest) : String :=
  match req.customPrompt with
  | none => analysisTypePrompt req.analysisType
  | some c =>
    if c == "" then analysisTypePrompt req.analysisType
    else c ++ "\n\n" ++ analysisTypePrompt req.analysisType

/-- The system prompt of src/GateView.ts lines 768-778: role description,
output language (request language || ko), and the optional source-citation
instruction. -/
def synthesisSystemPrompt (req : MultiSourceAnalysisRequest) : String :=
  "당신은 다중 소스 분석 전문가입니다. 여러 출처의 정보를 분석하고 통합하는 역할을 합니다.\n\n분석 시 다음 사항을 고려하세요:\n1. 각 소스의 신뢰성과 관점을 평가\n2. 소스 간의 관계와 상호 보완성 파악\n3. 핵심 인사이트와 패턴 도출\n4. 명확하고 구조화된 분석 결과 제공\n\n출력 형식: 마크다운\n언어: " ++
  jsOrOpt req.language "ko" ++ "\n" ++
  (if req.includeSourceReferences then "각 인용이나 정보에 출처를 명시해주세요." else "")

/-- The user prompt of src/GateView.ts lines 780-787: combined instruction,
the labeled block of all rendered sources, and the closing instruction
naming the source count. -/
def synthesisUserPrompt (req : MultiSourceAnalysisRequest) : String :=
  fullPrompt req ++ "\n\n=== 분석할 소스들 (" ++ toString req.sources.length ++
  "개) ===\n\n" ++ sourcesContext req ++ "\n\n=== 분석 요청 ===\n위의 " ++
  toString req.sources.length ++ "개 소스를 종합적으로 분석해주세요."

/-- The aggregate character count embedded twice in the output document
(src/GateView.ts lines 815 and 825): the reduce over the sources' metadata
charCount. -/
def totalChars (req : MultiSourceAnalysisRequest) : Nat :=
  req.sources.foldl (fun acc s => acc + s.metadata.charCount) 0

/-- The provider id string interpolated into synthesis messages. -/
def providerIdStr : AIProviderType → String
  | .gemini => "gemini"
  | .grok => "grok"
  | .claude => "claude"
  | .openai => "openai"
  | .glm => "glm"

/-- What runMultiSourceAnalysis does before the HTTP call settles: either a
local error (the thrown message surfaced by the catch block, no network
traffic) or the single vendor network call with the built prompts. -/
inductive SynthStep
  | localError (message : String)
  | networkCall (pid : AIProviderType) (apiKey : String)
      (systemText : String) (userText : String)
deriving DecidableEq

/-- The pre-network stage of GateView.runMultiSourceAnalysis
(src/GateView.ts lines 729-790): a falsy key for the active provider throws
locally (surfaced as an error message, no network call); otherwise the
single vendor call is dispatched with the rendered prompts. No validation
of the sources list occurs. -/
def runMultiSourceAnalysisStep (ai : AISettings) (req : MultiSourceAnalysisRequest) :
    SynthStep :=
  match ai.apiKeys ai.provider with
  | none => .localError (providerIdStr ai.provider ++ " API 키가 설정되지 않았습니다.")
  | some k =>
    if k == "" then
      .localError (providerIdStr ai.provider ++ " API 키가 설정되지 않았습니다.")
    else
      .networkCall ai.provider k (synthesisSystemPrompt req) (synthesisUserPrompt req)

/-- The endpoints table of GateView.callMultiSourceAI (src/GateView.ts lines
860-866). For Gemini the model name is embedded in the endpoint URL. -/
def multiSourceEndpoint : AIProviderType → String
  | .gemini => "https://generativelanguage.googleapis.com/v1beta/models/gemini-2.0-flash:generateContent"
  | .grok => "https://api.x.ai/v1/chat/completions"
  | .claude => "https://api.anthropic.com/v1/messages"
  | .openai => "https://api.openai.com/v1/chat/completions"
  | .glm => "https://open.bigmodel.cn/api/paas/v4/chat/completions"

/-- The model name callMultiSourceAI hardcodes per provider (src/GateView.ts
lines 861, 906, 929, 947): for Gemini it is the model segment of the
endpoint URL; it is not read from the settings. -/
def multiSourceWireModel : AIProviderType → String
  | .gemini => "gemini-2.0-flash"
  | .grok => "grok-3-latest"
  | .openai => "gpt-4o-mini"
  | .claude => "claude-sonnet-4-20250514"
  | .glm => "glm-4-flash"

/-- The wire-level parameters of the single fetch issued by
callMultiSourceAI. Temperature 0.7 is modelled as the rational 7/10. -/
structure MultiSourceWireCall where
  endpoint : String
  model : String
  apiKey : String
  temperature : ℚ
  maxTokens : Nat
deriving DecidableEq

/-- GateView.callMultiSourceAI (src/GateView.ts lines 854-962) reduced to
the parameters it puts on the wire: the hardcoded endpoint and model for the
provider, the caller-supplied key, and the fixed defaults temperature 0.7
and maxTokens 8192 (lines 874-875). -/
def callMultiSourceAIWire (provider : AIProviderType) (apiKey : String) :
    MultiSourceWireCall :=
  { endpoint := multiSourceEndpoint provider,
    model := multiSourceWireModel provider,
    apiKey := apiKey,
    temperature := 7/10,
    maxTokens := 8192 }

/-- The response every adapter builds in its missing-or-empty container
branch: failed, empty content, the fixed message, and no errorCode. Used in
theorem statements; the adapters carry the literal inline as the source
does. -/
def noResponseResult : AIProviderResponse :=
  { success := false, content := "", error := some "No response generated" }

/-- The weakened neutral-response invariant the adapters actually maintain:
a successful response carries no error field; a failed response has empty
content and a present error message. -/
def respInvariantWeak (r : AIProviderResponse) : Prop :=
  (r.success = true → r.error = none) ∧
  (r.success = false → r.content = "" ∧ r.error ≠ none)

/-- Settings with the custom-model override flag set for the active openai
provider but an empty custom model string. -/
def emptyOverrideSettings : AISettings :=
  { provider := .openai, apiKeys := fun _ => none, models := defaultModels,
    useCustomModel := true, customModel := "", defaultLanguage := "한국어" }

/-- Settings matching the spec example: active openai with override gpt-x. -/
def gptxOverrideSettings : AISettings :=
  { provider := .openai, apiKeys := fun _ => none, models := defaultModels,
    useCustomModel := true, customModel := "gpt-x", defaultLanguage := "한국어" }

/-- Settings with a key stored while gemini is the active provider. -/
def geminiKeySettings : AISettings :=
  { provider := .gemini, apiKeys := fun _ => some "test-key", models := defaultModels,
    useCustomModel := false, customModel := "", defaultLanguage := "한국어" }

/-- Settings with a key stored while openai is the active provider. -/
def openaiKeySettings : AISettings :=
  { provider := .openai, apiKeys := fun _ => some "sk-test", models := defaultModels,
    useCustomModel := false, customModel := "", defaultLanguage := "한국어" }

/-- Settings whose stored key is non-empty but consists of whitespace. -/
def whitespaceKeySettings : AISettings :=
  { provider := .gemini, apiKeys := fun _ => some "   ", models := defaultModels,
    useCustomModel := false, customModel := "", defaultLanguage := "한국어" }

/-- A synthesis request with no sources at all. -/
def emptySourcesRequest : MultiSourceAnalysisRequest :=
  { sources := [], analysisType := .synthesis, customPrompt := none,
    includeSourceReferences := false, language := none }

/-- A sample web-clip source. -/
def srcA : SourceItem :=
  { title := "A", content := "alpha", type := .webClip,
    metadata := { url := some "https://a.example", filePath := none, charCount := 5 } }

/-- A sample note source. -/
def srcB : SourceItem :=
  { title := "B", content := "beta", type := .obsidianNote,
    metadata := { url := none, filePath := some "notes/b.md", charCount := 4 } }

/-- A sample manually entered source. -/
def srcC : SourceItem :=
  { title := "C", content := "gamma", type := .manual,
    metadata := { url := none, filePath := none, charCount := 5 } }

/-- A comparison request over the three sample sources with an empty custom
prompt. -/
def threeSourceRequest : MultiSourceAnalysisRequest :=
  { sources := [srcA, srcB, srcC], analysisType := .comparison,
    customPrompt := some "", includeSourceReferences := false, language := none }

/-- A synthesis request with a single source. -/
def oneSourceRequest : MultiSourceAnalysisRequest :=
  { sources := [srcA], analysisType := .synthesis, customPrompt := none,
    includeSourceReferences := false, language := none }

/-- Every branch of the error normalizer maintains the weakened
neutral-response invariant. -/
theorem handleError_invariant (e : CaughtError) :
    respInvariantWeak (handleError e) := by
  simp only [handleError]
  split_ifs <;> simp [respInvariantWeak]

/-- Any rendered source block starts with its own 1-based index label. -/
theorem sourceBlock_decomp (i : Nat) (s : SourceItem) :
    ∃ r, sourceBlock i s = ("[소스 " ++ toString (i + 1) ++ "] ") ++ r := by
  refine ⟨s.title ++ "\n" ++ "타입: " ++ sourceTypeLabel s.type ++ "\n" ++
    renderOptLine "URL: " s.metadata.url ++ "\n" ++
    renderOptLine "파일: " s.metadata.filePath ++ "\n" ++
    "글자 수: " ++ toString s.metadata.charCount ++ "자\n\n내용:\n" ++
    s.content ++ "\n", ?_⟩
  simp [sourceBlock, String.append_assoc]

/-- C1. The spec claims that a successful adapter response always has
non-empty content. The OpenAI adapter, fed a parsed vendor response whose
single choice has empty message content, returns success with empty
content, falsifying the claim at that input. -/
theorem C1_counterexample :
    (openaiGenerateText (FetchOutcome.parsed
      { choices := some [{ message := { role := "assistant", content := "" } }],
        usage := none, error := none })).success = true ∧
    (openaiGenerateText (FetchOutcome.parsed
      { choices := some [{ message := { role := "assistant", content := "" } }],
        usage := none, error := none })).content = "" :=
  ⟨rfl, rfl⟩

/-- C1 (amended). Every response produced by the four adapters under src/
satisfies: success implies the error field is absent, and failure implies
empty content and a present error message. The non-emptiness of content on
success does not hold (see the counterexample) and is dropped. -/
theorem C1_neutral_response_invariant :
    (∀ x, respInvariantWeak (openaiGenerateText x)) ∧
    (∀ x, respInvariantWeak (geminiGenerateText x)) ∧
    (∀ x, respInvariantWeak (claudeGenerateText x)) ∧
    (∀ x, respInvariantWeak (glmGenerateText x)) := by
  refine ⟨fun x => ?_, fun x => ?_, fun x => ?_, fun x => ?_⟩
  · cases x with
    | threw e => exact handleError_invariant e
    | parsed r =>
      obtain ⟨choices, usage, err⟩ := r
      cases err with
      | some e0 => simp [openaiGenerateText, respInvariantWeak]
      | none =>
        cases choices with
        | none => simp [openaiGenerateText, respInvariantWeak]
        | some l =>
          cases l with
          | nil => simp [openaiGenerateText, respInvariantWeak]
          | cons c cs => simp [openaiGenerateText, respInvariantWeak]
  · cases x with
    | threw e => exact handleError_invariant e
    | parsed r =>
      obtain ⟨cands, usage, err⟩ := r
      cases err with
      | some e0 => simp [geminiGenerateText, respInvariantWeak]
      | none =>
        cases cands with
        | none => simp [geminiGenerateText, respInvariantWeak]
        | some l =>
          cases l with
          | nil => simp [geminiGenerateText, respInvariantWeak]
          | cons c cs => simp [geminiGenerateText, respInvariantWeak]
  · cases x with
    | threw e => exact handleError_invariant e
    | parsed r =>
      obtain ⟨blocks, usage, err⟩ := r
      cases err with
      | some e0 => simp [claudeGenerateText, respInvariantWeak]
      | none =>
        cases blocks with
        | none => simp [claudeGenerateText, respInvariantWeak]
        | some l =>
          cases l with
          | nil => simp [claudeGenerateText, respInvariantWeak]
          | cons c cs => simp [claudeGenerateText, respInvariantWeak]
  · cases x with
    | threw e => exact handleError_invariant e
    | parsed r =>
      obtain ⟨choices, usage, err⟩ := r
      cases err with
      | some e0 => simp [glmGenerateText, respInvariantWeak]
      | none =>
        cases choices with
        | none => simp [glmGenerateText, respInvariantWeak]
        | some l =>
          cases l with
          | nil => simp [glmGenerateText, respInvariantWeak]
          | cons c cs => simp [glmGenerateText, respInvariantWeak]

/-- C1 witness: the amended invariant evaluated at a concrete input. -/
theorem C1_witness :
    respInvariantWeak (openaiGenerateText (FetchOutcome.threw CaughtError.other)) :=
  C1_neutral_response_invariant.1 (FetchOutcome.threw CaughtError.other)

/-- C2. The spec claims the empty-or-missing candidate branch sets
errorCode no_response. The OpenAI adapter on a parsed response with an empty
choices array returns the failed response with no errorCode at all,
falsifying the claim at that input. -/
theorem C2_counterexample :
    openaiGenerateText (FetchOutcome.parsed
      { choices := some [], usage := none, error := none }) =
      { success := false, content := "", tokensUsed := none,
        error := some "No response generated", errorCode := none } :=
  rfl

/-- C2 (amended). For the four adapters under src/, a parsed vendor
response with no vendor error object and an empty or missing
candidate/choice/content array yields success false, empty content, the
fixed message No response generated, and no errorCode; the adapter is a
total function of the parsed response, so it does not throw. -/
theorem C2_empty_candidates :
    (∀ u, openaiGenerateText (FetchOutcome.parsed
      { choices := none, usage := u, error := none }) = noResponseResult) ∧
    (∀ u, openaiGenerateText (FetchOutcome.parsed
      { choices := some [], usage := u, error := none }) = noResponseResult) ∧
    (∀ u, geminiGenerateText (FetchOutcome.parsed
      { candidates := none, usageMetadata := u, error := none }) = noResponseResult) ∧
    (∀ u, geminiGenerateText (FetchOutcome.parsed
      { candidates := some [], usageMetadata := u, error := none }) = noResponseResult) ∧
    (∀ u, claudeGenerateText (FetchOutcome.parsed
      { content := none, usage := u, error := none }) = noResponseResult) ∧
    (∀ u, claudeGenerateText (FetchOutcome.parsed
      { content := some [], usage := u, error := none }) = noResponseResult) ∧
    (∀ u, glmGenerateText (FetchOutcome.parsed
      { choices := none, usage := u, error := none }) = noResponseResult) ∧
    (∀ u, glmGenerateText (FetchOutcome.parsed
      { choices := some [], usage := u, error := none }) = noResponseResult) :=
  ⟨fun _ => rfl, fun _ => rfl, fun _ => rfl, fun _ => rfl,
   fun _ => rfl, fun _ => rfl, fun _ => rfl, fun _ => rfl⟩

/-- C2 witness: the amended branch behavior evaluated at a concrete input. -/
theorem C2_witness :
    openaiGenerateText (FetchOutcome.parsed
      { choices := none, usage := none, error := none }) = noResponseResult :=
  C2_empty_candidates.1 none

/-- C3. The shared error normalizer returns success false with empty
content, a present error message, and an errorCode equal to the code of the
spec's ordered pattern classification (401/Unauthorized, then
429/rate limit, then timeout/ETIMEDOUT, else unknown) applied to the
stringified caught error. The source spells the kinds UNAUTHORIZED,
RATE_LIMIT, TIMEOUT, UNKNOWN. -/
theorem C3_error_normalizer (e : CaughtError) :
    (handleError e).success = false ∧ (handleError e).content = "" ∧
    (handleError e).error ≠ none ∧
    (handleError e).errorCode =
      some (errorKindCode (classifyErrorText (stringifyCaught e))) := by
  simp only [handleError, classifyErrorText]
  split_ifs <;> simp [errorKindCode]

/-- C3 witness: a stringified 429 error is classified as rate limited. -/
theorem C3_witness :
    (handleError (CaughtError.errStr "HTTP 429: rate limit")).errorCode =
      some "RATE_LIMIT" :=
  ((C3_error_normalizer (CaughtError.errStr "HTTP 429: rate limit")).2.2.2).trans
    (by decide)

/-- C4. When no credential is stored for the active provider (absent or
empty key), AIService.generateText returns the local API-key-not-configured
failure without dispatching any network call, and the completed result is
that same failed response for every possible adapter outcome; the modelled
service is a total function, so it never throws. The no-adapter branch is
unreachable because all five adapters are registered. -/
theorem C4_local_validation (s : AISettings) (om : Option String)
    (h : optTruthy (s.apiKeys s.provider) = false) :
    generateTextStep s om =
      GenDispatch.localFail { success := false, content := "",
                              error := some ("API key not configured for " ++
                                providerName s.provider) } ∧
    (∀ outcome, generateTextResult (generateTextStep s om) outcome =
      { success := false, content := "",
        error := some ("API key not configured for " ++ providerName s.provider) }) := by
  have hstep : generateTextStep s om =
      GenDispatch.localFail { success := false, content := "",
                              error := some ("API key not configured for " ++
                                providerName s.provider) } := by
    cases hk : s.apiKeys s.provider with
    | none => simp [generateTextStep, providersRegistered, hk]
    | some k =>
      rw [hk] at h
      have hk0 : k = "" := by simpa [optTruthy] using h
      simp [generateTextStep, providersRegistered, hk, hk0]
  exact ⟨hstep, fun outcome => by rw [hstep]; rfl⟩

/-- C4 witness: with the default settings (no stored keys) the service
fails locally without dispatching. -/
theorem C4_witness :
    generateTextStep DEFAULT_AI_SETTINGS none =
      GenDispatch.localFail { success := false, content := "",
                              error := some ("API key not configured for " ++
                                providerName DEFAULT_AI_SETTINGS.provider) } :=
  (C4_local_validation DEFAULT_AI_SETTINGS none (by decide)).1

/-- C5. The spec claims resolveModel returns the custom override exactly
when the flag is set and the queried id is the active default. With the
flag set for active openai but an empty customModel, the source expression
customModel || models[id] falls back to the configured model gpt-5, which
differs from the custom override value, falsifying the exactly-when. -/
theorem C5_counterexample :
    emptyOverrideSettings.useCustomModel = true ∧
    emptyOverrideSettings.provider = AIProviderType.openai ∧
    getModelForProvider emptyOverrideSettings AIProviderType.openai = "gpt-5" ∧
    getModelForProvider emptyOverrideSettings AIProviderType.openai ≠
      emptyOverrideSettings.customModel := by
  refine ⟨rfl, rfl, rfl, by decide⟩

/-- C5 (amended). getModelForProvider returns the custom override exactly
when the override flag is set, the queried provider equals the active
default, and the custom model string is non-empty; in every other case,
including an empty custom model, it returns that provider's configured
model. -/
theorem C5_resolve_model (s : AISettings) (pid : AIProviderType) :
    (s.useCustomModel = true → s.provider = pid → s.customModel ≠ "" →
      getModelForProvider s pid = s.customModel) ∧
    (s.useCustomModel = false ∨ s.provider ≠ pid ∨ s.customModel = "" →
      getModelForProvider s pid = s.models pid) := by
  constructor
  · intro h1 h2 h3
    simp [getModelForProvider, h1, h2, h3]
  · intro h
    rcases h with h | h | h
    · simp [getModelForProvider, h]
    · have hb : (s.provider == pid) = false := by simpa using h
      simp [getModelForProvider, hb]
    · simp [getModelForProvider, h]

/-- C5 witness: with active openai and override gpt-x, querying openai
yields the override while querying claude yields the configured Claude
model, matching the spec example. -/
theorem C5_witness :
    getModelForProvider gptxOverrideSettings AIProviderType.openai = "gpt-x" ∧
    getModelForProvider gptxOverrideSettings AIProviderType.claude =
      "claude-sonnet-4-5-20241022" :=
  ⟨((C5_resolve_model gptxOverrideSettings AIProviderType.openai).1 rfl rfl
      (by decide)).trans (by decide),
   ((C5_resolve_model gptxOverrideSettings AIProviderType.claude).2
      (Or.inr (Or.inl (by decide)))).trans (by decide)⟩

/-- C6. The spec claims an empty sources sequence is rejected locally with
no network call. The pipeline performs no such validation: with a key
stored for the active provider and an empty sources list it dispatches the
vendor network call, falsifying the claim at that input. -/
theorem C6_counterexample :
    emptySourcesRequest.sources = [] ∧
    runMultiSourceAnalysisStep geminiKeySettings emptySourcesRequest =
      SynthStep.networkCall AIProviderType.gemini "test-key"
        (synthesisSystemPrompt emptySourcesRequest)
        (synthesisUserPrompt emptySourcesRequest) :=
  ⟨rfl, rfl⟩

/-- C6 (amended). Given an empty sources sequence the pipeline renders zero
source blocks and does not reject: it fails locally (with the missing-key
message, no network call) exactly when the active provider's key is absent
or empty, and otherwise dispatches the single vendor network call. -/
theorem C6_no_empty_validation (ai : AISettings) (req : MultiSourceAnalysisRequest)
    (hs : req.sources = []) :
    sourceBlocks req = [] ∧
    (optTruthy (ai.apiKeys ai.provider) = false →
      runMultiSourceAnalysisStep ai req =
        SynthStep.localError (providerIdStr ai.provider ++ " API 키가 설정되지 않았습니다.")) ∧
    (∀ k, ai.apiKeys ai.provider = some k → k ≠ "" →
      runMultiSourceAnalysisStep ai req =
        SynthStep.networkCall ai.provider k (synthesisSystemPrompt req)
          (synthesisUserPrompt req)) := by
  refine ⟨by simp [sourceBlocks, hs], ?_, ?_⟩
  · intro h
    cases hk : ai.apiKeys ai.provider with
    | none => simp [runMultiSourceAnalysisStep, hk]
    | some k =>
      rw [hk] at h
      have hk0 : k = "" := by simpa [optTruthy] using h
      simp [runMultiSourceAnalysisStep, hk, hk0]
  · intro k hk hne
    have hb : (k == "") = false := by simpa using hne
    simp [runMultiSourceAnalysisStep, hk, hb]

/-- C6 witness: with no stored key the empty-sources run fails locally. -/
theorem C6_witness :
    runMultiSourceAnalysisStep DEFAULT_AI_SETTINGS emptySourcesRequest =
      SynthStep.localError (providerIdStr DEFAULT_AI_SETTINGS.provider ++
        " API 키가 설정되지 않았습니다.") :=
  (C6_no_empty_validation DEFAULT_AI_SETTINGS emptySourcesRequest rfl).2.1 (by decide)

/-- C7. For a comparison request with empty custom prompt over three
sources, the rendered prompt contains exactly the three source blocks in
input order joined by the visible separator, each block starting with its
own 1-based index label, the blocks appear verbatim inside the user prompt,
and the aggregate character count embedded in the output document equals
the sum of the three sources' charCount values. -/
theorem C7_three_source_prompt (req : MultiSourceAnalysisRequest)
    (a b c : SourceItem) (hs : req.sources = [a, b, c])
    (_ht : req.analysisType = AnalysisType.comparison)
    (_hc : req.customPrompt = some "") :
    sourceBlocks req = [sourceBlock 0 a, sourceBlock 1 b, sourceBlock 2 c] ∧
    (∃ r1, sourceBlock 0 a = "[소스 1] " ++ r1) ∧
    (∃ r2, sourceBlock 1 b = "[소스 2] " ++ r2) ∧
    (∃ r3, sourceBlock 2 c = "[소스 3] " ++ r3) ∧
    sourcesContext req =
      sourceBlock 0 a ++ "\n---\n\n" ++ sourceBlock 1 b ++ "\n---\n\n" ++
        sourceBlock 2 c ∧
    (∃ pre post, synthesisUserPrompt req = pre ++ sourcesContext req ++ post) ∧
    totalChars req =
      a.metadata.charCount + b.metadata.charCount + c.metadata.charCount := by
  have hblocks : sourceBlocks req =
      [sourceBlock 0 a, sourceBlock 1 b, sourceBlock 2 c] := by
    simp [sourceBlocks, hs, List.enum, List.enumFrom]
  refine ⟨hblocks, ?_, ?_, ?_, ?_, ?_, ?_⟩
  · obtain ⟨r, hr⟩ := sourceBlock_decomp 0 a
    exact ⟨r, hr.trans (by rw [show ("[소스 " ++ toString (0 + 1) ++ "] " : String) =
      "[소스 1] " from by decide])⟩
  · obtain ⟨r, hr⟩ := sourceBlock_decomp 1 b
    exact ⟨r, hr.trans (by rw [show ("[소스 " ++ toString (1 + 1) ++ "] " : String) =
      "[소스 2] " from by decide])⟩
  · obtain ⟨r, hr⟩ := sourceBlock_decomp 2 c
    exact ⟨r, hr.trans (by rw [show ("[소스 " ++ toString (2 + 1) ++ "] " : String) =
      "[소스 3] " from by decide])⟩
  · rw [sourcesContext, hblocks]
    simp [joinWithSep, String.append_assoc]
  · refine ⟨fullPrompt req ++ "\n\n=== 분석할 소스들 (" ++
      toString req.sources.length ++ "개) ===\n\n",
      "\n\n=== 분석 요청 ===\n위의 " ++ toString req.sources.length ++
        "개 소스를 종합적으로 분석해주세요.", ?_⟩
    simp [synthesisUserPrompt, String.append_assoc]
  · simp [totalChars, hs]

/-- C7 witness: the aggregate character count of the sample three-source
comparison request equals the sum 5 + 4 + 5 of its charCount values. -/
theorem C7_witness : totalChars threeSourceRequest = 14 := by
  have h := (C7_three_source_prompt threeSourceRequest srcA srcB srcC rfl rfl
    rfl).2.2.2.2.2.2
  exact h.trans (by decide)

/-- C8. The spec claims the synthesis call goes out with the active
provider's resolved model. The wire model is hardcoded per provider: for
active openai with the default configured model, the dispatched call uses
gpt-4o-mini while resolveModel yields gpt-5, falsifying the claim. -/
theorem C8_counterexample :
    runMultiSourceAnalysisStep openaiKeySettings oneSourceRequest =
      SynthStep.networkCall AIProviderType.openai "sk-test"
        (synthesisSystemPrompt oneSourceRequest)
        (synthesisUserPrompt oneSourceRequest) ∧
    (callMultiSourceAIWire AIProviderType.openai "sk-test").model = "gpt-4o-mini" ∧
    getModelForProvider openaiKeySettings AIProviderType.openai = "gpt-5" ∧
    (callMultiSourceAIWire AIProviderType.openai "sk-test").model ≠
      getModelForProvider openaiKeySettings AIProviderType.openai := by
  refine ⟨rfl, rfl, rfl, by decide⟩

/-- C8 (amended). The synthesis pipeline dispatches its single vendor call
with the active provider's stored credential, but with the hardcoded
per-provider wire model (not resolveModel), and with the fixed defaults
temperature 0.7 and a max-output ceiling of 8192 tokens. -/
theorem C8_dispatch_parameters (ai : AISettings) (req : MultiSourceAnalysisRequest)
    (k : String) (h1 : ai.apiKeys ai.provider = some k) (h2 : k ≠ "") :
    runMultiSourceAnalysisStep ai req =
      SynthStep.networkCall ai.provider k (synthesisSystemPrompt req)
        (synthesisUserPrompt req) ∧
    (callMultiSourceAIWire ai.provider k).apiKey = k ∧
    (callMultiSourceAIWire ai.provider k).model = multiSourceWireModel ai.provider ∧
    (callMultiSourceAIWire ai.provider k).temperature = 7 / 10 ∧
    (callMultiSourceAIWire ai.provider k).maxTokens = 8192 := by
  have hb : (k == "") = false := by simpa using h2
  exact ⟨by simp [runMultiSourceAnalysisStep, h1, hb], rfl, rfl, rfl, rfl⟩

/-- C8 witness: the dispatched wire model for active openai is the
hardcoded gpt-4o-mini. -/
theorem C8_witness :
    (callMultiSourceAIWire openaiKeySettings.provider "sk-test").model =
      "gpt-4o-mini" := by
  have h := (C8_dispatch_parameters openaiKeySettings oneSourceRequest "sk-test"
    rfl (by decide)).2.2.1
  exact h.trans (by decide)

/-- C9. The spec claims testCredential reports success only with a
recognizable non-empty response container. The Gemini credential test on a
parsed reply whose candidates array is present but empty returns true,
falsifying the non-emptiness requirement at that input. -/
theorem C9_counterexample :
    geminiTestApiKey (FetchOutcome.parsed
      { candidates := some [], usageMetadata := none, error := none }) = true :=
  rfl

/-- C9 (amended). For the four adapters under src/, the credential test
returns false on a thrown network error rather than propagating it; it
returns true only if the vendor reply carries no error object and the
response container field is present (possibly an empty list); and any
error-flagged payload yields false. -/
theorem C9_test_credential :
    ((∀ e, openaiTestApiKey (FetchOutcome.threw e) = false) ∧
     (∀ r, openaiTestApiKey (FetchOutcome.parsed r) = true →
       r.error = none ∧ r.data.isSome = true) ∧
     (∀ r er, r.error = some er → openaiTestApiKey (FetchOutcome.parsed r) = false)) ∧
    ((∀ e, geminiTestApiKey (FetchOutcome.threw e) = false) ∧
     (∀ r, geminiTestApiKey (FetchOutcome.parsed r) = true →
       r.error = none ∧ r.candidates.isSome = true) ∧
     (∀ r er, r.error = some er → geminiTestApiKey (FetchOutcome.parsed r) = false)) ∧
    ((∀ e, claudeTestApiKey (FetchOutcome.threw e) = false) ∧
     (∀ r, claudeTestApiKey (FetchOutcome.parsed r) = true →
       r.error = none ∧ r.content.isSome = true) ∧
     (∀ r er, r.error = some er → claudeTestApiKey (FetchOutcome.parsed r) = false)) ∧
    ((∀ e, glmTestApiKey (FetchOutcome.threw e) = false) ∧
     (∀ r, glmTestApiKey (FetchOutcome.parsed r) = true →
       r.error = none ∧ r.choices.isSome = true) ∧
     (∀ r er, r.error = some er → glmTestApiKey (FetchOutcome.parsed r) = false)) := by
  refine ⟨⟨fun e => rfl, fun r h => ?_, fun r er he => ?_⟩,
          ⟨fun e => rfl, fun r h => ?_, fun r er he => ?_⟩,
          ⟨fun e => rfl, fun r h => ?_, fun r er he => ?_⟩,
          ⟨fun e => rfl, fun r h => ?_, fun r er he => ?_⟩⟩
  · simp [openaiTestApiKey, Option.isNone_iff_eq_none] at h
    exact ⟨h.2, h.1⟩
  · simp [openaiTestApiKey, he]
  · simp [geminiTestApiKey, Option.isNone_iff_eq_none] at h
    exact ⟨h.1, h.2⟩
  · simp [geminiTestApiKey, he]
  · simp [claudeTestApiKey, Option.isNone_iff_eq_none] at h
    exact ⟨h.1, h.2⟩
  · simp [claudeTestApiKey, he]
  · simp [glmTestApiKey, Option.isNone_iff_eq_none] at h
    exact ⟨h.1, h.2⟩
  · simp [glmTestApiKey, he]

/-- C9 witness: a thrown network error makes the credential test report
false instead of propagating. -/
theorem C9_witness :
    openaiTestApiKey (FetchOutcome.threw CaughtError.other) = false :=
  C9_test_credential.1.1 CaughtError.other

/-- C10. A stored key that is non-empty but all whitespace makes
isProviderConfigured false (it trims), yet generateText's falsiness-only
key check passes and the request is dispatched to the adapter, so a
network call is attempted. -/
theorem C10_whitespace_key (s : AISettings) (k : String)
    (h1 : s.apiKeys s.provider = some k) (h2 : k ≠ "") (h3 : jsTrim k = "") :
    isProviderConfigured s s.provider = false ∧
    (∀ om, generateTextStep s om =
      GenDispatch.dispatch s.provider k
        (jsOrOpt om (getModelForProvider s s.provider))) := by
  have hb : (k == "") = false := by simpa using h2
  constructor
  · simp [isProviderConfigured, h1, hb, h3]
  · intro om
    simp [generateTextStep, providersRegistered, h1, hb]

/-- C10 witness: the three-space key is not considered configured, yet the
request is dispatched. -/
theorem C10_witness :
    isProviderConfigured whitespaceKeySettings whitespaceKeySettings.provider = false ∧
    generateTextStep whitespaceKeySettings none =
      GenDispatch.dispatch AIProviderType.gemini "   "
        (jsOrOpt none (getModelForProvider whitespaceKeySettings AIProviderType.gemini)) := by
  have h := C10_whitespace_key whitespaceKeySettings "   " rfl (by decide) (by decide)
  exact ⟨h.1, h.2 none⟩

end EasyGate
